import Mathlib

/-!
Shallow embedding of `android::CameraSource`
(media/libstagefright/CameraSource.cpp) and proofs about its
frame-buffering, timestamping, lifecycle and accounting behaviour.

Frames are identified by their buffer identity (the `IMemory` pointer of the
C++ code), modelled as a `Nat`.  Timestamps are microseconds, modelled as
`Int` (the C++ `int64_t`; no arithmetic here comes near the 64-bit range).
Counters are `Nat` (the C++ `int32_t` counters, which only ever increase
from 0 one by one).

External side effects are made visible in the state:
  * `released` is the ordered trace of `releaseRecordingFrame` calls that
    hand buffer ownership back to the camera;
  * `mFrameAvailableSignals` / `mFrameCompleteSignals` count the
    `signal()` calls on the two condition variables.
These three ghost fields correspond to no C++ data member; every other
field is a data member of the C++ class.  Fields that only affect logging
(`mCollectStats`) or describe pixel formats (`mMeta`, width/height/color
format) play no role in any claim and are not modelled.
-/

/-- The mutable state of one `CameraSource` object, as initialised by the
constructor and mutated by the member functions embedded below. -/
structure CameraSource where
  mStarted : Bool
  mNumFramesReceived : Nat
  mNumFramesEncoded : Nat
  mNumFramesDropped : Nat
  mNumGlitches : Nat
  mLastFrameTimestampUs : Int
  mFirstFrameTimeUs : Int
  mStartTimeUs : Int
  mGlitchDurationThresholdUs : Int
  /-- `mFramesReceived`: the pending FIFO of frames queued for the consumer. -/
  mFramesReceived : List Nat
  /-- `mFrameTimes`: the adjusted timestamps of the queued frames. -/
  mFrameTimes : List Int
  /-- `mFramesBeingEncoded`: frames handed to the consumer, not yet returned. -/
  mFramesBeingEncoded : List Nat
  /-- Ghost: ordered trace of `releaseRecordingFrame` calls (ownership of the
  listed buffers returned to the camera, oldest first). -/
  released : List Nat
  /-- Ghost: number of `mFrameAvailableCondition.signal()` calls so far. -/
  mFrameAvailableSignals : Nat
  /-- Ghost: number of `mFrameCompleteCondition.signal()` calls so far. -/
  mFrameCompleteSignals : Nat
  deriving Repr, DecidableEq

namespace CameraSource

/-- The constructor `CameraSource::CameraSource(camera)`: all counters and
clock fields start at zero, `mStarted` is false, and
`mGlitchDurationThresholdUs` starts at 200000 and is raised to
`1000000 / frameRate` when that is larger (lines 124-151 of the source).
`mStartTimeUs` is first written by `start()`; it is 0 here. -/
def mkCameraSource (frameRate : Int) : CameraSource :=
  { mStarted := false
    mNumFramesReceived := 0
    mNumFramesEncoded := 0
    mNumFramesDropped := 0
    mNumGlitches := 0
    mLastFrameTimestampUs := 0
    mFirstFrameTimeUs := 0
    mStartTimeUs := 0
    mGlitchDurationThresholdUs :=
      if 200000 < 1000000 / frameRate then 1000000 / frameRate else 200000
    mFramesReceived := []
    mFrameTimes := []
    mFramesBeingEncoded := []
    released := []
    mFrameAvailableSignals := 0
    mFrameCompleteSignals := 0 }

/-- Outcome of `CameraSource::start`.  The C++ body contains two fatal
assertions — `CHECK(!mStarted)` and `CHECK_EQ(OK, mCamera->startRecording())`
inside `startCameraRecording()` — which abort the process; `fatalAssert`
models that outcome, in which nothing is ever returned to the caller.
`returned status s` models `start` returning the status code `status`
(`OK = 0`) with the object left in state `s`. -/
inductive StartResult where
  | fatalAssert
  | returned (status : Int) (s : CameraSource)
  deriving Repr, DecidableEq

/-- The `status_t` value `OK`. -/
def OK : Int := 0

/-- Whether a `StartResult` is a value actually returned to the caller
(as opposed to a fatal assertion that aborts the process). -/
def StartResult.isReturned : StartResult → Bool
  | .returned _ _ => true
  | .fatalAssert => false

/-- `CameraSource::start(meta)` (lines 181-203) combined with
`startCameraRecording()` (lines 177-179): assert not already started, read
the optional explicit start time from the metadata into `mStartTimeUs`
(0 when absent), command the camera to start recording —
`CHECK_EQ(OK, mCamera->startRecording())` aborts when that fails, modelled
by the `cameraStartOk` flag — then set `mStarted` and return `OK`.
Every non-aborting path returns `OK`. -/
def start (cameraStartOk : Bool) (startTimeUs : Option Int) (s : CameraSource) :
    StartResult :=
  if s.mStarted then StartResult.fatalAssert
  else
    let s1 := { s with mStartTimeUs := startTimeUs.getD 0 }
    if cameraStartOk then StartResult.returned OK { s1 with mStarted := true }
    else StartResult.fatalAssert

/-- The glitch check of `dataCallbackTimestamp` (lines 327-333): when at
least one frame has been received and the gap from the last frame exceeds
the threshold, increment `mNumGlitches` (the branch otherwise only logs). -/
def recordGlitch (timestampUs : Int) (s : CameraSource) : CameraSource :=
  if 0 < s.mNumFramesReceived ∧
      s.mGlitchDurationThresholdUs < timestampUs - s.mLastFrameTimestampUs then
    { s with mNumGlitches := s.mNumGlitches + 1 }
  else s

/-- The tail of `dataCallbackTimestamp` (lines 356-363): count the frame as
received, append it to `mFramesReceived`, compute
`timeUs = mStartTimeUs + (timestampUs - mFirstFrameTimeUs)` and append it
to `mFrameTimes`, and signal the frame-available condition. -/
def enqueueFrame (timestampUs : Int) (data : Nat) (s : CameraSource) :
    CameraSource :=
  { s with
    mNumFramesReceived := s.mNumFramesReceived + 1
    mFramesReceived := s.mFramesReceived ++ [data]
    mFrameTimes := s.mFrameTimes ++ [s.mStartTimeUs + (timestampUs - s.mFirstFrameTimeUs)]
    mFrameAvailableSignals := s.mFrameAvailableSignals + 1 }

/-- `CameraSource::dataCallbackTimestamp(timestampUs, msgType, data)`
(lines 316-364), with the early returns of the C++ unfolded into nested
branches.  The virtual hook `skipCurrentFrame(timestampUs)` (implemented by
the subclass `CameraSourceTimeLapse`, base class returns false) is passed
in as the function `skip`.  `msgType` is unused by the body and omitted.
Control flow, in source order:
  1. not started: release the frame, `++mNumFramesReceived`,
     `++mNumFramesDropped`, return;
  2. glitch check (see `recordGlitch`);
  3. `skipCurrentFrame` hook: release the frame and return;
  4. `mLastFrameTimestampUs = timestampUs`;
  5. first frame: `mFirstFrameTimeUs = timestampUs`; when an explicit start
     time was set (`mStartTimeUs > 0`): a frame captured before it is
     released and the callback returns, otherwise
     `mStartTimeUs = timestampUs - mStartTimeUs` (the initial delay);
  6. count and enqueue the frame (see `enqueueFrame`). -/
def dataCallbackTimestamp (skip : Int → Bool) (timestampUs : Int) (data : Nat)
    (s : CameraSource) : CameraSource :=
  if s.mStarted = false then
    { s with
      released := s.released ++ [data]
      mNumFramesReceived := s.mNumFramesReceived + 1
      mNumFramesDropped := s.mNumFramesDropped + 1 }
  else
    let s1 := recordGlitch timestampUs s
    if skip timestampUs then
      { s1 with released := s1.released ++ [data] }
    else
      let s2 := { s1 with mLastFrameTimestampUs := timestampUs }
      if s2.mNumFramesReceived = 0 then
        let s3 := { s2 with mFirstFrameTimeUs := timestampUs }
        if 0 < s3.mStartTimeUs then
          if timestampUs < s3.mStartTimeUs then
            { s3 with released := s3.released ++ [data] }
          else
            enqueueFrame timestampUs data
              { s3 with mStartTimeUs := timestampUs - s3.mStartTimeUs }
        else
          enqueueFrame timestampUs data s3
      else
        enqueueFrame timestampUs data s2

/-- Outcome of `CameraSource::read`.  `endOfStream` models
`return OK` with `*buffer` left `NULL`; `gotFrame f t` models `return OK`
with `*buffer` a `MediaBuffer` over frame `f` carrying `kKeyTime = t`;
`wouldBlock` models the consumer thread parking on
`mFrameAvailableCondition` (the C++ wait loop re-checks on wake-up, so a
real call only ever finishes in one of the first three outcomes). -/
inductive ReadResult where
  | errorUnsupported
  | endOfStream
  | gotFrame (frame : Nat) (timeUs : Int)
  | wouldBlock
  deriving Repr, DecidableEq

/-- `CameraSource::read(buffer, options)` (lines 278-314): a seek request is
answered with `ERROR_UNSUPPORTED`; the wait loop blocks while started with
an empty queue; once out of the loop, a non-started state returns OK with a
null buffer (end of stream) regardless of queue contents; otherwise the
front frame and the front adjusted timestamp are popped together and the
frame is pushed onto `mFramesBeingEncoded`.  The C++ reads the fronts of
both lists unconditionally; the `wouldBlock` fallback with a non-empty
frame list cannot arise in any reachable state. -/
def read (hasSeekOption : Bool) (s : CameraSource) : ReadResult × CameraSource :=
  if hasSeekOption then (ReadResult.errorUnsupported, s)
  else if s.mStarted = false then (ReadResult.endOfStream, s)
  else
    match s.mFramesReceived, s.mFrameTimes with
    | frame :: restFrames, frameTime :: restTimes =>
        (ReadResult.gotFrame frame frameTime,
         { s with
           mFramesReceived := restFrames
           mFrameTimes := restTimes
           mFramesBeingEncoded := s.mFramesBeingEncoded ++ [frame] })
    | _, _ => (ReadResult.wouldBlock, s)

/-- Remove the first element equal to `ptr` from a list, or `none` when no
element matches: the search loop of `signalBufferReturned`
(`(*it)->pointer() == buffer->data()`, first match erased). -/
def removeFirst (ptr : Nat) : List Nat → Option (List Nat)
  | [] => none
  | x :: xs =>
      if x = ptr then some xs
      else (removeFirst ptr xs).map (fun ys => x :: ys)

/-- `CameraSource::signalBufferReturned(buffer)` (lines 261-276): scan
`mFramesBeingEncoded` for the entry whose buffer identity matches; on the
first match, release that frame back to the camera, erase it, increment
`mNumFramesEncoded` and signal the frame-complete condition.  When no entry
matches, the C++ executes `CHECK_EQ(0, "signalBufferReturned: bogus
buffer")`, a fatal assertion; that outcome is modelled by `none`. -/
def signalBufferReturned (ptr : Nat) (s : CameraSource) : Option CameraSource :=
  match removeFirst ptr s.mFramesBeingEncoded with
  | some rest =>
      some { s with
             released := s.released ++ [ptr]
             mFramesBeingEncoded := rest
             mNumFramesEncoded := s.mNumFramesEncoded + 1
             mFrameCompleteSignals := s.mFrameCompleteSignals + 1 }
  | none => none

/-- `CameraSource::releaseQueuedFrames()` (lines 241-249): the loop pops the
front of `mFramesReceived`, releases that frame back to the camera and
increments `mNumFramesDropped`, once per queued frame, until the queue is
empty.  Written as the loop's net effect: every queued frame is appended to
the release trace in order, the dropped counter grows by the queue length,
and the frame queue becomes empty.  `mFrameTimes` is not touched by the
C++ loop, and is not touched here. -/
def releaseQueuedFrames (s : CameraSource) : CameraSource :=
  { s with
    released := s.released ++ s.mFramesReceived
    mNumFramesDropped := s.mNumFramesDropped + s.mFramesReceived.length
    mFramesReceived := [] }

/-- The part of `CameraSource::stop()` (lines 209-235) executed before the
drain-wait loop: clear `mStarted`, signal the frame-available condition
(so a blocked `read` observes end of stream), detach the listener, stop the
camera, and drop all still-pending frames via `releaseQueuedFrames`.
After this, `stop` waits on `mFrameCompleteCondition` until
`mFramesBeingEncoded` is empty (the wait releases the lock, so callbacks
and consumer calls interleave), and finally performs
`CHECK_EQ(mNumFramesReceived, mNumFramesEncoded + mNumFramesDropped)`
— see `stopCheck` — before returning `OK`. -/
def stopRequest (s : CameraSource) : CameraSource :=
  releaseQueuedFrames
    { s with
      mStarted := false
      mFrameAvailableSignals := s.mFrameAvailableSignals + 1 }

/-- The postcondition assertion at the end of `stop()` (line 233):
`CHECK_EQ(mNumFramesReceived, mNumFramesEncoded + mNumFramesDropped)`.
`stop` aborts with an assertion failure exactly when this is `false`. -/
def stopCheck (s : CameraSource) : Bool :=
  s.mNumFramesReceived == s.mNumFramesEncoded + s.mNumFramesDropped

/-- One interleaving step of the system: a camera callback (with the
subclass skip hook an arbitrary function of the timestamp), a consumer
`read` (without seek options; outcomes that deliver nothing leave the state
unchanged), a successful `signalBufferReturned`, or the entry of `stop()`.
Restart after `stop` is not modelled: the C++ nulls `mCamera` in `stop`,
so a second `start` would dereference a null camera. -/
inductive Step : CameraSource → CameraSource → Prop where
  | callback (skip : Int → Bool) (ts : Int) (d : Nat) (s : CameraSource) :
      Step s (dataCallbackTimestamp skip ts d s)
  | consumerRead (s : CameraSource) : Step s (read false s).2
  | bufferReturn (p : Nat) (s s' : CameraSource) :
      signalBufferReturned p s = some s' → Step s s'
  | stopEnter (s : CameraSource) : Step s (stopRequest s)

/-- Reachability by any finite interleaving of `Step`s. -/
inductive Reach : CameraSource → CameraSource → Prop where
  | refl (s : CameraSource) : Reach s s
  | tail {s t u : CameraSource} : Reach s t → Step t u → Reach s u

/-- A run's initial state: the object freshly constructed for some frame
rate, started successfully with some optional explicit start time. -/
def Init (s0 : CameraSource) : Prop :=
  ∃ frameRate startTimeUs,
    start true startTimeUs (mkCameraSource frameRate) = StartResult.returned OK s0

/-- Frame accounting: every received frame is encoded, dropped, pending in
the queue, or in flight to the consumer. -/
def accounting (s : CameraSource) : Prop :=
  s.mNumFramesReceived =
    s.mNumFramesEncoded + s.mNumFramesDropped +
      s.mFramesReceived.length + s.mFramesBeingEncoded.length

/-- The queue-pairing invariant: the pending frame list and the pending
adjusted-timestamp list have the same length (entry `i` of one belongs to
entry `i` of the other). -/
def Paired (s : CameraSource) : Prop :=
  s.mFramesReceived.length = s.mFrameTimes.length

instance (s : CameraSource) : Decidable (Paired s) :=
  inferInstanceAs (Decidable (s.mFramesReceived.length = s.mFrameTimes.length))

end CameraSource

open CameraSource

/-- The base class's `skipCurrentFrame`: always false (never skip). -/
def neverSkip : Int → Bool := fun _ => false

/-- A subclass skip hook that requests dropping every frame. -/
def alwaysSkip : Int → Bool := fun _ => true

/-- A freshly constructed source (frame rate 30) started with no explicit
start time: the result state of `start true none (mkCameraSource 30)`. -/
def startedNoOffset : CameraSource :=
  { mkCameraSource 30 with mStarted := true }

/-- A freshly constructed source (frame rate 30) started with the explicit
start time 100: the result state of `start true (some 100) (mkCameraSource 30)`. -/
def s100 : CameraSource :=
  { mkCameraSource 30 with mStarted := true, mStartTimeUs := 100 }

/-- Scenario state: frame with capture timestamp 80 (buffer 1) delivered to
`s100`. -/
def c2s1 : CameraSource := dataCallbackTimestamp neverSkip 80 1 s100

/-- Scenario state: then a frame with capture timestamp 120 (buffer 2). -/
def c2s2 : CameraSource := dataCallbackTimestamp neverSkip 120 2 c2s1

/-- Scenario state: then a frame with capture timestamp 130 (buffer 3). -/
def c2s3 : CameraSource := dataCallbackTimestamp neverSkip 130 3 c2s2

/-- Scenario state: one frame (buffer 4, capture timestamp 0) accepted on a
source started with no explicit start time. -/
def oneFrameState : CameraSource := dataCallbackTimestamp neverSkip 0 4 startedNoOffset

/-- Scenario state: one frame in flight to the consumer (buffer 5). -/
def c3state : CameraSource :=
  { mkCameraSource 30 with mStarted := true, mFramesBeingEncoded := [5] }

/-- Scenario state: not started, with a frame (buffer 7, time 0) still in the
pending queue. -/
def c10state : CameraSource :=
  { mkCameraSource 30 with mFramesReceived := [7], mFrameTimes := [0] }

/-! ## Helper lemmas -/

@[simp] theorem recordGlitch_mStarted (k : Int) (s : CameraSource) :
    (recordGlitch k s).mStarted = s.mStarted := by
  unfold recordGlitch; split <;> rfl

@[simp] theorem recordGlitch_mNumFramesReceived (k : Int) (s : CameraSource) :
    (recordGlitch k s).mNumFramesReceived = s.mNumFramesReceived := by
  unfold recordGlitch; split <;> rfl

@[simp] theorem recordGlitch_mNumFramesEncoded (k : Int) (s : CameraSource) :
    (recordGlitch k s).mNumFramesEncoded = s.mNumFramesEncoded := by
  unfold recordGlitch; split <;> rfl

@[simp] theorem recordGlitch_mNumFramesDropped (k : Int) (s : CameraSource) :
    (recordGlitch k s).mNumFramesDropped = s.mNumFramesDropped := by
  unfold recordGlitch; split <;> rfl

@[simp] theorem recordGlitch_mLastFrameTimestampUs (k : Int) (s : CameraSource) :
    (recordGlitch k s).mLastFrameTimestampUs = s.mLastFrameTimestampUs := by
  unfold recordGlitch; split <;> rfl

@[simp] theorem recordGlitch_mFirstFrameTimeUs (k : Int) (s : CameraSource) :
    (recordGlitch k s).mFirstFrameTimeUs = s.mFirstFrameTimeUs := by
  unfold recordGlitch; split <;> rfl

@[simp] theorem recordGlitch_mStartTimeUs (k : Int) (s : CameraSource) :
    (recordGlitch k s).mStartTimeUs = s.mStartTimeUs := by
  unfold recordGlitch; split <;> rfl

@[simp] theorem recordGlitch_mGlitchDurationThresholdUs (k : Int) (s : CameraSource) :
    (recordGlitch k s).mGlitchDurationThresholdUs = s.mGlitchDurationThresholdUs := by
  unfold recordGlitch; split <;> rfl

@[simp] theorem recordGlitch_mFramesReceived (k : Int) (s : CameraSource) :
    (recordGlitch k s).mFramesReceived = s.mFramesReceived := by
  unfold recordGlitch; split <;> rfl

@[simp] theorem recordGlitch_mFrameTimes (k : Int) (s : CameraSource) :
    (recordGlitch k s).mFrameTimes = s.mFrameTimes := by
  unfold recordGlitch; split <;> rfl

@[simp] theorem recordGlitch_mFramesBeingEncoded (k : Int) (s : CameraSource) :
    (recordGlitch k s).mFramesBeingEncoded = s.mFramesBeingEncoded := by
  unfold recordGlitch; split <;> rfl

@[simp] theorem recordGlitch_released (k : Int) (s : CameraSource) :
    (recordGlitch k s).released = s.released := by
  unfold recordGlitch; split <;> rfl

@[simp] theorem recordGlitch_mFrameAvailableSignals (k : Int) (s : CameraSource) :
    (recordGlitch k s).mFrameAvailableSignals = s.mFrameAvailableSignals := by
  unfold recordGlitch; split <;> rfl

@[simp] theorem recordGlitch_mFrameCompleteSignals (k : Int) (s : CameraSource) :
    (recordGlitch k s).mFrameCompleteSignals = s.mFrameCompleteSignals := by
  unfold recordGlitch; split <;> rfl

theorem removeFirst_of_mem {p : Nat} {l : List Nat} (h : p ∈ l) :
    removeFirst p l = some (l.erase p) := by
  induction l with
  | nil => cases h
  | cons x xs ih =>
    by_cases hx : x = p
    · subst hx
      simp [removeFirst, List.erase_cons_head]
    · have hmem : p ∈ xs := by
        rcases List.mem_cons.mp h with h1 | h1
        · exact absurd h1.symm hx
        · exact h1
      simp [removeFirst, hx, ih hmem, List.erase_cons_tail, hx]

theorem removeFirst_of_not_mem {p : Nat} {l : List Nat} (h : p ∉ l) :
    removeFirst p l = none := by
  induction l with
  | nil => rfl
  | cons x xs ih =>
    have hx : ¬ x = p := fun hc => h (hc ▸ List.mem_cons_self x xs)
    have hxs : p ∉ xs := fun hc => h (List.mem_cons_of_mem x hc)
    simp [removeFirst, hx, ih hxs]

theorem removeFirst_length {p : Nat} {l l' : List Nat}
    (h : removeFirst p l = some l') : l'.length + 1 = l.length := by
  induction l generalizing l' with
  | nil => cases h
  | cons x xs ih =>
    by_cases hx : x = p
    · simp [removeFirst, hx] at h
      subst h; rfl
    · simp [removeFirst, hx] at h
      obtain ⟨ys, hys, rfl⟩ := h
      simpa using ih hys

/-! ## Claim theorems -/

/-- C3: completing a buffer identity that is in the in-flight set removes its
first matching entry, releases the underlying buffer back to the camera
exactly once (one new entry on the release trace), increments the encoded
counter by one, and signals the frame-complete (drain) condition; completing
an identity not in the set yields `none`, the model of the fatal
`CHECK_EQ(0, "signalBufferReturned: bogus buffer")` assertion — the call is
rejected, not silently ignored. -/
theorem C3_signalBufferReturned (s : CameraSource) (p : Nat) :
    (p ∈ s.mFramesBeingEncoded →
      signalBufferReturned p s =
        some { s with
               released := s.released ++ [p]
               mFramesBeingEncoded := s.mFramesBeingEncoded.erase p
               mNumFramesEncoded := s.mNumFramesEncoded + 1
               mFrameCompleteSignals := s.mFrameCompleteSignals + 1 }) ∧
    (p ∉ s.mFramesBeingEncoded → signalBufferReturned p s = none) := by
  constructor
  · intro h
    simp [signalBufferReturned, removeFirst_of_mem h]
  · intro h
    simp [signalBufferReturned, removeFirst_of_not_mem h]

/-- C3 witness: buffer 5 is in flight in `c3state`; completing it removes it,
releases it, and bumps the encoded counter and the drain-condition signal. -/
theorem C3_signalBufferReturned_witness :
    5 ∈ c3state.mFramesBeingEncoded ∧
    signalBufferReturned 5 c3state =
      some { c3state with
             released := c3state.released ++ [5]
             mFramesBeingEncoded := c3state.mFramesBeingEncoded.erase 5
             mNumFramesEncoded := c3state.mNumFramesEncoded + 1
             mFrameCompleteSignals := c3state.mFrameCompleteSignals + 1 } :=
  ⟨by decide, (C3_signalBufferReturned c3state 5).1 (by decide)⟩

/-- C4: a frame delivered while the source is not started is never queued
(the pending queue is unchanged), its buffer is released back to the camera
immediately, and the dropped counter grows by exactly one. -/
theorem C4_drop_when_not_started (skip : Int → Bool) (ts : Int) (d : Nat)
    (s : CameraSource) (h : s.mStarted = false) :
    (dataCallbackTimestamp skip ts d s).mFramesReceived = s.mFramesReceived ∧
    (dataCallbackTimestamp skip ts d s).released = s.released ++ [d] ∧
    (dataCallbackTimestamp skip ts d s).mNumFramesDropped = s.mNumFramesDropped + 1 := by
  simp [dataCallbackTimestamp, h]

/-- C4 witness: a frame arriving at a freshly constructed (not started)
source is dropped, released, and not queued. -/
theorem C4_drop_when_not_started_witness :
    (mkCameraSource 30).mStarted = false ∧
    (dataCallbackTimestamp neverSkip 5 2 (mkCameraSource 30)).mFramesReceived =
      (mkCameraSource 30).mFramesReceived ∧
    (dataCallbackTimestamp neverSkip 5 2 (mkCameraSource 30)).released =
      (mkCameraSource 30).released ++ [2] ∧
    (dataCallbackTimestamp neverSkip 5 2 (mkCameraSource 30)).mNumFramesDropped =
      (mkCameraSource 30).mNumFramesDropped + 1 :=
  ⟨by decide, C4_drop_when_not_started neverSkip 5 2 (mkCameraSource 30) (by decide)⟩

/-- C5 counterexample: with explicit start time 100, a first frame captured
at 80 is dropped, but `mLastFrameTimestampUs` is NOT left unchanged by the
drop: `mLastFrameTimestampUs = timestampUs` (line 342) executes before the
before-start-time check (line 347), so it moves from 0 to 80. -/
theorem C5_counterexample :
    s100.mStartTimeUs = 100 ∧
    s100.mLastFrameTimestampUs = 0 ∧
    (dataCallbackTimestamp neverSkip 80 1 s100).mLastFrameTimestampUs = 80 := by
  decide

/-- C5 (amended): when an explicit start time is set and the first frame
arrives before it, the frame is dropped — released immediately, not queued,
no counter updated — but `mLastFrameTimestampUs` (and `mFirstFrameTimeUs`)
are set to the dropped frame's capture timestamp by the drop. -/
theorem C5_prestart_drop (skip : Int → Bool) (ts : Int) (d : Nat)
    (s : CameraSource) (hs : s.mStarted = true) (hsk : skip ts = false)
    (h0 : s.mNumFramesReceived = 0) (hT : 0 < s.mStartTimeUs)
    (hlt : ts < s.mStartTimeUs) :
    dataCallbackTimestamp skip ts d s =
      { s with
        mLastFrameTimestampUs := ts
        mFirstFrameTimeUs := ts
        released := s.released ++ [d] } := by
  simp [dataCallbackTimestamp, hs, hsk, recordGlitch, h0, hT, hlt]

/-- C5 witness: the amended statement at the concrete scenario input
(start time 100, first frame captured at 80). -/
theorem C5_prestart_drop_witness :
    dataCallbackTimestamp neverSkip 80 1 s100 =
      { s100 with
        mLastFrameTimestampUs := 80
        mFirstFrameTimeUs := 80
        released := s100.released ++ [1] } :=
  C5_prestart_drop neverSkip 80 1 s100 (by decide) (by decide) (by decide)
    (by decide) (by decide)

/-- C7 counterexample: when the camera fails to start recording, nothing is
returned to the caller at all — `CHECK_EQ(OK, mCamera->startRecording())`
aborts the process — so the failure is not propagated as a `start()`
failure result. -/
theorem C7_counterexample :
    StartResult.isReturned (start false none (mkCameraSource 30)) = false := by
  decide

/-- C7 (amended): if the capture source fails to begin producing frames,
`start()` dies on a fatal assertion instead of returning a failure status;
since the abort happens before `mStarted = true`, the started flag is never
set. -/
theorem C7_start_failure_aborts (startTimeUs : Option Int) (s : CameraSource)
    (h : s.mStarted = false) :
    start false startTimeUs s = StartResult.fatalAssert := by
  simp [start, h]

/-- C7 witness: the amended statement on a freshly constructed source. -/
theorem C7_start_failure_aborts_witness :
    start false none (mkCameraSource 30) = StartResult.fatalAssert :=
  C7_start_failure_aborts none (mkCameraSource 30) (by decide)

/-- C8 counterexample: after one accepted frame (`received = 1`), a frame
that the subclass skip hook requests to drop leaves the received counter at
1 — the skip path (lines 337-340) returns before `++mNumFramesReceived` —
contradicting the claim that a hook-dropped frame still increments it. -/
theorem C8_counterexample :
    oneFrameState.mNumFramesReceived = 1 ∧
    (dataCallbackTimestamp alwaysSkip 50 5 oneFrameState).mNumFramesReceived = 1 ∧
    ¬ (dataCallbackTimestamp alwaysSkip 50 5 oneFrameState).mNumFramesReceived =
        oneFrameState.mNumFramesReceived + 1 := by
  decide

/-- C8 (amended): when the skip hook requests a drop, the frame is released
and not queued, and the received counter, dropped counter, pending queue,
timestamp queue and `mLastFrameTimestampUs` are all unchanged; only the
glitch counter may have been updated by the arrival (the glitch check runs
before the hook), exactly as for a kept frame. -/
theorem C8_skip_hook (skip : Int → Bool) (ts : Int) (d : Nat)
    (s : CameraSource) (hs : s.mStarted = true) (hsk : skip ts = true) :
    (dataCallbackTimestamp skip ts d s).mNumFramesReceived = s.mNumFramesReceived ∧
    (dataCallbackTimestamp skip ts d s).mNumFramesDropped = s.mNumFramesDropped ∧
    (dataCallbackTimestamp skip ts d s).mFramesReceived = s.mFramesReceived ∧
    (dataCallbackTimestamp skip ts d s).mFrameTimes = s.mFrameTimes ∧
    (dataCallbackTimestamp skip ts d s).mLastFrameTimestampUs = s.mLastFrameTimestampUs ∧
    (dataCallbackTimestamp skip ts d s).released = s.released ++ [d] ∧
    (dataCallbackTimestamp skip ts d s).mNumGlitches = (recordGlitch ts s).mNumGlitches := by
  simp [dataCallbackTimestamp, hs, hsk]

/-- C8 witness: the amended statement at the concrete input (one accepted
frame, then a hook-dropped frame at timestamp 50). -/
theorem C8_skip_hook_witness :
    (dataCallbackTimestamp alwaysSkip 50 5 oneFrameState).mNumFramesReceived =
      oneFrameState.mNumFramesReceived ∧
    (dataCallbackTimestamp alwaysSkip 50 5 oneFrameState).mNumFramesDropped =
      oneFrameState.mNumFramesDropped ∧
    (dataCallbackTimestamp alwaysSkip 50 5 oneFrameState).mFramesReceived =
      oneFrameState.mFramesReceived ∧
    (dataCallbackTimestamp alwaysSkip 50 5 oneFrameState).mFrameTimes =
      oneFrameState.mFrameTimes ∧
    (dataCallbackTimestamp alwaysSkip 50 5 oneFrameState).mLastFrameTimestampUs =
      oneFrameState.mLastFrameTimestampUs ∧
    (dataCallbackTimestamp alwaysSkip 50 5 oneFrameState).released =
      oneFrameState.released ++ [5] ∧
    (dataCallbackTimestamp alwaysSkip 50 5 oneFrameState).mNumGlitches =
      (recordGlitch 50 oneFrameState).mNumGlitches :=
  C8_skip_hook alwaysSkip 50 5 oneFrameState (by decide) (by decide)

/-- C10: whenever the source is not started, a (non-seeking) `read` returns
`OK` with a null buffer — end of stream — and changes nothing, with no
hypothesis on the pending queue, so queued frames are never delivered once
`stop()` has flipped the state (`stopRequest` leaves `mStarted = false`). -/
theorem C10_read_eos (s : CameraSource) (h : s.mStarted = false) :
    read false s = (ReadResult.endOfStream, s) ∧
    (stopRequest s).mStarted = false := by
  constructor
  · simp [CameraSource.read, h]
  · simp [stopRequest, releaseQueuedFrames]

/-- C10 witness: a not-started state that still holds an undelivered frame in
the pending queue; `read` returns end of stream and does not deliver it. -/
theorem C10_read_eos_witness :
    c10state.mStarted = false ∧
    c10state.mFramesReceived = [7] ∧
    read false c10state = (ReadResult.endOfStream, c10state) :=
  ⟨by decide, by decide, (C10_read_eos c10state (by decide)).1⟩

/-- C2 counterexample: with the explicit start time T = 100 and frames at
capture timestamps 80, 120, 130, the code drops the frame at 80 — but the
frame at 120 is assigned presentation timestamp 20, not 0, and the frame at
130 gets 30, not 10: the accepted first frame sets
`mStartTimeUs = 120 - 100 = 20` (the initial delay), and
`timeUs = mStartTimeUs + (timestampUs - mFirstFrameTimeUs)`. -/
theorem C2_counterexample :
    c2s1.mFramesReceived = [] ∧ c2s1.released = [1] ∧
    c2s3.mFrameTimes = [20, 30] ∧ ¬ c2s3.mFrameTimes = [0, 10] := by
  decide

/-- C2 (amended): in the T = 100 scenario with frames at 80, 120, 130, the
frame at 80 is dropped, the frame at 120 gets presentation timestamp 20 and
the frame at 130 gets 30; in general the first accepted frame after an
explicit start time T gets presentation timestamp
`startOffset = captureTimestamp - T` (not 0), and every later accepted
frame gets `startOffset + (captureTimestamp - firstFrameTimestamp)`. -/
theorem C2_presentation_times :
    (c2s1.mFramesReceived = [] ∧ c2s1.released = [1] ∧
      c2s3.mFrameTimes = [20, 30]) ∧
    (∀ (s : CameraSource) (skip : Int → Bool) (ts : Int) (d : Nat),
      s.mStarted = true → skip ts = false → s.mNumFramesReceived = 0 →
      0 < s.mStartTimeUs → s.mStartTimeUs ≤ ts →
      (dataCallbackTimestamp skip ts d s).mFrameTimes =
        s.mFrameTimes ++ [ts - s.mStartTimeUs] ∧
      (dataCallbackTimestamp skip ts d s).mStartTimeUs = ts - s.mStartTimeUs ∧
      (dataCallbackTimestamp skip ts d s).mFirstFrameTimeUs = ts) ∧
    (∀ (s : CameraSource) (skip : Int → Bool) (ts : Int) (d : Nat),
      s.mStarted = true → skip ts = false → 0 < s.mNumFramesReceived →
      (dataCallbackTimestamp skip ts d s).mFrameTimes =
        s.mFrameTimes ++ [s.mStartTimeUs + (ts - s.mFirstFrameTimeUs)]) := by
  refine ⟨by decide, ?_, ?_⟩
  · intro s skip ts d hs hsk h0 hT hle
    have hnlt : ¬ ts < s.mStartTimeUs := not_lt.mpr hle
    simp [dataCallbackTimestamp, hs, hsk, h0, hT, hnlt, enqueueFrame]
  · intro s skip ts d hs hsk hpos
    have h0 : ¬ s.mNumFramesReceived = 0 := Nat.pos_iff_ne_zero.mp hpos
    simp [dataCallbackTimestamp, hs, hsk, h0, enqueueFrame]

/-- C2 witness: the general formulas applied at the scenario's concrete
frames: 120 as first accepted frame after T = 100 yields 120 - 100 = 20,
and 130 then yields 20 + (130 - 120) = 30. -/
theorem C2_presentation_times_witness :
    (dataCallbackTimestamp neverSkip 120 2 c2s1).mFrameTimes =
      c2s1.mFrameTimes ++ [120 - c2s1.mStartTimeUs] ∧
    (dataCallbackTimestamp neverSkip 130 3 c2s2).mFrameTimes =
      c2s2.mFrameTimes ++ [c2s2.mStartTimeUs + (130 - c2s2.mFirstFrameTimeUs)] :=
  ⟨(C2_presentation_times.2.1 c2s1 neverSkip 120 2 (by decide) (by decide)
      (by decide) (by decide) (by decide)).1,
   C2_presentation_times.2.2 c2s2 neverSkip 130 3 (by decide) (by decide)
      (by decide)⟩

/-- C6: the glitch threshold is the maximum of the 200000 us default and one
expected inter-frame interval `1000000 / frameRate`; and a frame arriving
while started with `received > 0` whose gap from the last frame exceeds the
threshold bumps the glitch counter by exactly one and (when not dropped for
another reason, here the skip hook) is still enqueued — the glitch itself
never drops a frame. -/
theorem C6_glitch_detection :
    (∀ frameRate : Int, (mkCameraSource frameRate).mGlitchDurationThresholdUs =
        max 200000 (1000000 / frameRate)) ∧
    (∀ (s : CameraSource) (skip : Int → Bool) (ts : Int) (d : Nat),
      s.mStarted = true → skip ts = false →
      0 < s.mNumFramesReceived →
      s.mGlitchDurationThresholdUs < ts - s.mLastFrameTimestampUs →
      (dataCallbackTimestamp skip ts d s).mNumGlitches = s.mNumGlitches + 1 ∧
      (dataCallbackTimestamp skip ts d s).mFramesReceived =
        s.mFramesReceived ++ [d]) := by
  constructor
  · intro frameRate
    unfold mkCameraSource
    by_cases h : (200000 : Int) < 1000000 / frameRate
    · simp [h, max_eq_right h.le]
    · simp [h, max_eq_left (not_lt.mp h)]
  · intro s skip ts d hs hsk hpos hgap
    have h0 : ¬ s.mNumFramesReceived = 0 := Nat.pos_iff_ne_zero.mp hpos
    simp [dataCallbackTimestamp, hs, hsk, recordGlitch, hpos, hgap, h0,
      enqueueFrame]

/-- C6 witness: frame rate 30 gives threshold max 200000 33333 = 200000; and
after one frame at timestamp 0, a frame at 250000 (gap 250000 > 200000)
bumps the glitch counter from 0 to 1 and is still enqueued. -/
theorem C6_glitch_detection_witness :
    (mkCameraSource 30).mGlitchDurationThresholdUs = max 200000 (1000000 / 30) ∧
    oneFrameState.mNumGlitches = 0 ∧
    (dataCallbackTimestamp neverSkip 250000 8 oneFrameState).mNumGlitches =
      oneFrameState.mNumGlitches + 1 ∧
    (dataCallbackTimestamp neverSkip 250000 8 oneFrameState).mFramesReceived =
      oneFrameState.mFramesReceived ++ [8] :=
  ⟨C6_glitch_detection.1 30, by decide,
   (C6_glitch_detection.2 oneFrameState neverSkip 250000 8 (by decide)
      (by decide) (by decide) (by decide)).1,
   (C6_glitch_detection.2 oneFrameState neverSkip 250000 8 (by decide)
      (by decide) (by decide) (by decide)).2⟩

/-! ## Accounting invariant machinery (for the stop() postcondition) -/

theorem accounting_dataCallback (skip : Int → Bool) (ts : Int) (d : Nat)
    (s : CameraSource) (h : accounting s) :
    accounting (dataCallbackTimestamp skip ts d s) := by
  unfold accounting at h ⊢
  simp only [dataCallbackTimestamp]
  split
  · simp; omega
  · split
    · simp; omega
    · split
      · split
        · split
          · simp; omega
          · simp [enqueueFrame]; omega
        · simp [enqueueFrame]; omega
      · simp [enqueueFrame]; omega

theorem accounting_read (s : CameraSource) (h : accounting s) :
    accounting (CameraSource.read false s).2 := by
  unfold accounting at h ⊢
  unfold CameraSource.read
  by_cases hst : s.mStarted = false
  · simp [hst]
    omega
  · rcases hf : s.mFramesReceived with _ | ⟨f, fs⟩
    · rw [hf] at h
      simp [hst, hf]
      simp at h
      omega
    · rcases htt : s.mFrameTimes with _ | ⟨t, tsl⟩
      · rw [hf] at h
        simp [hst, hf, htt]
        simp at h
        omega
      · rw [hf] at h
        simp [hst, hf, htt]
        simp at h
        omega

theorem accounting_sbr (p : Nat) (s s' : CameraSource)
    (hret : signalBufferReturned p s = some s') (h : accounting s) :
    accounting s' := by
  unfold signalBufferReturned at hret
  cases hrem : removeFirst p s.mFramesBeingEncoded with
  | none => rw [hrem] at hret; cases hret
  | some rest =>
    rw [hrem] at hret
    injection hret with hret
    subst hret
    have hlen := removeFirst_length hrem
    unfold accounting at h ⊢
    simp
    omega

theorem accounting_stopRequest (s : CameraSource) (h : accounting s) :
    accounting (stopRequest s) := by
  unfold accounting at h ⊢
  unfold stopRequest releaseQueuedFrames
  simp
  omega

theorem accounting_step {s t : CameraSource} (hs : Step s t)
    (h : accounting s) : accounting t := by
  cases hs with
  | callback skip ts d => exact accounting_dataCallback skip ts d s h
  | consumerRead => exact accounting_read s h
  | bufferReturn p =>
    rename_i hret
    exact accounting_sbr p s t hret h
  | stopEnter => exact accounting_stopRequest s h

theorem accounting_reach {s t : CameraSource} (hr : Reach s t)
    (h : accounting s) : accounting t := by
  induction hr with
  | refl => exact h
  | tail hr hs ih => exact accounting_step hs ih

theorem accounting_init {s0 : CameraSource} (h : Init s0) : accounting s0 := by
  obtain ⟨fr, t0, h⟩ := h
  simp [start, mkCameraSource] at h
  subst h
  simp [accounting]

/-- Once the source is stopped with an empty pending queue, every step keeps
it stopped with an empty pending queue (callbacks drop, reads see end of
stream, completions touch only the in-flight set, re-entering stop is
idempotent on these fields). -/
theorem stopped_empty_step {s t : CameraSource} (hs : Step s t)
    (h1 : s.mStarted = false) (h2 : s.mFramesReceived = []) :
    t.mStarted = false ∧ t.mFramesReceived = [] := by
  cases hs with
  | callback skip ts d => simp [dataCallbackTimestamp, h1, h2]
  | consumerRead => simp [CameraSource.read, h1, h2]
  | bufferReturn p =>
    rename_i hret
    unfold signalBufferReturned at hret
    cases hrem : removeFirst p s.mFramesBeingEncoded with
    | none => rw [hrem] at hret; cases hret
    | some rest =>
      rw [hrem] at hret
      injection hret with hret
      subst hret
      simp [h1, h2]
  | stopEnter => simp [stopRequest, releaseQueuedFrames, h1, h2]

theorem stopped_empty_reach {s t : CameraSource} (hr : Reach s t)
    (h1 : s.mStarted = false) (h2 : s.mFramesReceived = []) :
    t.mStarted = false ∧ t.mFramesReceived = [] := by
  induction hr with
  | refl => exact ⟨h1, h2⟩
  | tail hr hs ih => exact stopped_empty_step hs ih.1 ih.2

/-- C1: for every run — any start configuration, any interleaving of camera
callbacks (with any skip-hook behaviour), consumer reads and buffer
completions, then `stop()` entry and any further interleaving while `stop`
waits for the consumer to drain — once the in-flight set is empty (the
condition under which `stop()` stops waiting and returns), the
postcondition assertion `CHECK_EQ(mNumFramesReceived, mNumFramesEncoded +
mNumFramesDropped)` checked on line 233 before `stop` returns evaluates to
true: received = encoded + dropped.  A violation would make `stopCheck`
false and the `CHECK_EQ` abort, so it is surfaced as an assertion failure,
never swallowed. -/
theorem C1_stop_postcondition (s0 s1 s2 : CameraSource)
    (hInit : Init s0) (hRun : Reach s0 s1)
    (hDrain : Reach (stopRequest s1) s2)
    (hEmpty : s2.mFramesBeingEncoded = []) :
    stopCheck s2 = true ∧
    s2.mNumFramesReceived = s2.mNumFramesEncoded + s2.mNumFramesDropped := by
  have ha : accounting s2 :=
    accounting_reach hDrain
      (accounting_stopRequest s1 (accounting_reach hRun (accounting_init hInit)))
  have hq : s2.mStarted = false ∧ s2.mFramesReceived = [] :=
    stopped_empty_reach hDrain
      (by simp [stopRequest, releaseQueuedFrames])
      (by simp [stopRequest, releaseQueuedFrames])
  unfold accounting at ha
  rw [hq.2, hEmpty] at ha
  simp at ha
  refine ⟨?_, ha⟩
  simp [stopCheck, ha]

/-- C1 witness: a concrete run — construct at frame rate 30, start with no
explicit start time, accept one frame, then stop while that frame is still
pending: the postcondition check passes (1 received = 0 encoded +
1 dropped). -/
theorem C1_stop_postcondition_witness :
    Init startedNoOffset ∧
    (stopRequest oneFrameState).mFramesBeingEncoded = [] ∧
    stopCheck (stopRequest oneFrameState) = true :=
  ⟨⟨30, none, by decide⟩, by decide,
   (C1_stop_postcondition startedNoOffset oneFrameState
      (stopRequest oneFrameState) ⟨30, none, by decide⟩
      (Reach.tail (Reach.refl _) (Step.callback neverSkip 0 4 startedNoOffset))
      (Reach.refl _) (by decide)).1⟩

/-- C9 counterexample: with one accepted frame pending (frame list `[4]`,
timestamp list `[0]`), dropping the still-pending frames during stop()
(`releaseQueuedFrames`, called from `stopRequest`) empties the frame list
but leaves the timestamp list untouched, so the two lists no longer have
equal length — the claimed pairing invariant does not survive stop(). -/
theorem C9_counterexample :
    Paired oneFrameState ∧
    (stopRequest oneFrameState).mFramesReceived.length = 0 ∧
    (stopRequest oneFrameState).mFrameTimes.length = 1 ∧
    ¬ Paired (stopRequest oneFrameState) := by
  decide

/-- C9 (amended): the camera callback and the consumer `read` keep the frame
list and the timestamp list in lockstep — a kept frame appends to both, a
delivered frame pops the front of both (the i-th pending frame travels with
the i-th pending timestamp), and buffer completion touches neither — but
`releaseQueuedFrames` during stop() removes only the frames: after the
pending frames are dropped, the timestamp list still holds the dropped
frames' timestamps, so the equal-length pairing does not hold after stop()
dropped a non-empty queue. -/
theorem C9_queue_pairing :
    (∀ (s : CameraSource) (skip : Int → Bool) (ts : Int) (d : Nat),
      Paired s → Paired (dataCallbackTimestamp skip ts d s)) ∧
    (∀ s : CameraSource, Paired s → Paired (CameraSource.read false s).2) ∧
    (∀ (s : CameraSource) (f : Nat) (fs : List Nat) (t : Int) (tsl : List Int),
      s.mStarted = true → s.mFramesReceived = f :: fs → s.mFrameTimes = t :: tsl →
      (CameraSource.read false s).1 = ReadResult.gotFrame f t ∧
      (CameraSource.read false s).2.mFramesReceived = fs ∧
      (CameraSource.read false s).2.mFrameTimes = tsl) ∧
    (∀ (p : Nat) (s s' : CameraSource), signalBufferReturned p s = some s' →
      s'.mFramesReceived = s.mFramesReceived ∧ s'.mFrameTimes = s.mFrameTimes) ∧
    (∀ s : CameraSource, (stopRequest s).mFramesReceived = [] ∧
      (stopRequest s).mFrameTimes = s.mFrameTimes) := by
  refine ⟨?_, ?_, ?_, ?_, ?_⟩
  · intro s skip ts d hp
    unfold Paired at hp ⊢
    simp only [dataCallbackTimestamp]
    split
    · simpa using hp
    · split
      · simpa using hp
      · split
        · split
          · split
            · simpa using hp
            · simp [enqueueFrame]; omega
          · simp [enqueueFrame]; omega
        · simp [enqueueFrame]; omega
  · intro s hp
    unfold Paired at hp ⊢
    unfold CameraSource.read
    by_cases hst : s.mStarted = false
    · simpa [hst] using hp
    · rcases hf : s.mFramesReceived with _ | ⟨f, fs⟩
      · rw [hf] at hp
        simp [hst, hf]
        simp at hp
        omega
      · rcases htt : s.mFrameTimes with _ | ⟨t, tsl⟩
        · rw [hf, htt] at hp
          simp at hp
        · rw [hf, htt] at hp
          simp [hst, hf, htt]
          simp at hp
          omega
  · intro s f fs t tsl hst hf htt
    simp [CameraSource.read, hst, hf, htt]
  · intro p s s' hret
    unfold signalBufferReturned at hret
    cases hrem : removeFirst p s.mFramesBeingEncoded with
    | none => rw [hrem] at hret; cases hret
    | some rest =>
      rw [hrem] at hret
      injection hret with hret
      subst hret
      simp
  · intro s
    simp [stopRequest, releaseQueuedFrames]

/-- C9 witness: the pairing-preservation parts applied at concrete inputs —
accepting a frame into the started empty source preserves pairing, and a
consumer read on the one-pending-frame state delivers the paired
(frame 4, timestamp 0) and pops both lists. -/
theorem C9_queue_pairing_witness :
    Paired startedNoOffset ∧
    Paired (dataCallbackTimestamp neverSkip 0 4 startedNoOffset) ∧
    (CameraSource.read false oneFrameState).1 = ReadResult.gotFrame 4 0 ∧
    (CameraSource.read false oneFrameState).2.mFramesReceived = [] ∧
    (CameraSource.read false oneFrameState).2.mFrameTimes = [] :=
  ⟨by decide,
   C9_queue_pairing.1 startedNoOffset neverSkip 0 4 (by decide),
   (C9_queue_pairing.2.2.1 oneFrameState 4 [] 0 [] (by decide) (by decide)
      (by decide)).1,
   (C9_queue_pairing.2.2.1 oneFrameState 4 [] 0 [] (by decide) (by decide)
      (by decide)).2.1,
   (C9_queue_pairing.2.2.1 oneFrameState 4 [] 0 [] (by decide) (by decide)
      (by decide)).2.2⟩
